import Mathlib

/-!
Verification development for the chatbot-builder program
(`chatbot_builder.py`): a rule-based responder built on regular-expression
pattern tables, a generative responder with bounded conversation context,
and the per-turn dispatch between them.

The rule tables are Python dicts keyed by pattern string; they are embedded
as insertion-ordered association lists with replace-in-place update, which
is exactly Python's dict-assignment semantics.  Pattern matching is
Python's `re.search`; it is embedded by a small regular-expression engine
covering the syntax the program uses (literal characters, escapes, groups,
alternation and the word-boundary assertion), with unsupported or
ill-formed patterns failing to compile, matching `re.error`.
-/

set_option maxRecDepth 8192

/-- Word character in the sense of Python re's word-boundary rule:
alphanumeric or underscore. -/
def isWordChar (c : Char) : Bool :=
  c.isAlphanum || c == '_'

/-- Whether position `i` of the text holds a word character
(out of range counts as non-word). -/
def wordAt (full : List Char) (i : Nat) : Bool :=
  match full[i]? with
  | some c => isWordChar c
  | none => false

/-- Word boundary between positions `i - 1` and `i` of the text. -/
def isBoundary (full : List Char) (i : Nat) : Bool :=
  (match i with
   | 0 => false
   | j + 1 => wordAt full j) != wordAt full i

/-- Abstract syntax of the regular-expression subset used by the program:
literal characters, the word-boundary assertion, concatenation and
alternation (groups only affect parsing). -/
inductive Regex where
  | emp : Regex
  | chr : Char → Regex
  | wordB : Regex
  | seq : Regex → Regex → Regex
  | alt : Regex → Regex → Regex
deriving DecidableEq

/-- End positions of matches of the regex starting at position `i` of the
text (the whole text is kept for boundary look-around). -/
def matchEnds (full : List Char) : Regex → Nat → List Nat
  | Regex.emp, i => [i]
  | Regex.chr c, i =>
    match full[i]? with
    | some d => if d = c then [i + 1] else []
    | none => []
  | Regex.wordB, i => if isBoundary full i then [i] else []
  | Regex.seq a b, i => (matchEnds full a i).flatMap (matchEnds full b)
  | Regex.alt a b, i => matchEnds full a i ++ matchEnds full b i

/-- Models Python `re.search`'s match test: the compiled pattern matches
anywhere within the text. -/
def regexSearch (r : Regex) (s : String) : Bool :=
  (List.range (s.data.length + 1)).any fun i => !(matchEnds s.data r i).isEmpty

mutual

/-- Recursive-descent recogniser for one atom of the pattern subset:
an escape, a parenthesised group, or a literal character.  Unsupported
metacharacters and ill-formed input yield `none` (compilation failure). -/
def parseAtom : Nat → List Char → Option (Regex × List Char)
  | 0, _ => none
  | fuel + 1, cs =>
    match cs with
    | [] => none
    | '\\' :: rest =>
      match rest with
      | [] => none
      | c :: rest2 =>
        if c = 'b' then some (Regex.wordB, rest2)
        else if c.isAlphanum then none
        else some (Regex.chr c, rest2)
    | '(' :: rest =>
      match parseAlt fuel rest with
      | none => none
      | some (r, rest2) =>
        match rest2 with
        | ')' :: rest3 => some (r, rest3)
        | _ => none
    | c :: rest =>
      if c = ')' ∨ c = '|' ∨ c = '*' ∨ c = '+' ∨ c = '?' ∨ c = '[' ∨ c = ']' ∨
         c = '.' ∨ c = '^' ∨ c = '$' ∨ c = '\x7b' ∨ c = '\x7d' then none
      else some (Regex.chr c, rest)

/-- Recognise a concatenation of atoms, stopping at `|`, `)` or the end. -/
def parseSeq : Nat → List Char → Option (Regex × List Char)
  | 0, _ => none
  | fuel + 1, cs =>
    match cs with
    | [] => some (Regex.emp, [])
    | c :: _ =>
      if c = '|' ∨ c = ')' then some (Regex.emp, cs)
      else
        match parseAtom fuel cs with
        | none => none
        | some (r, rest) =>
          match parseSeq fuel rest with
          | none => none
          | some (r2, rest2) => some (Regex.seq r r2, rest2)

/-- Recognise an alternation of concatenations. -/
def parseAlt : Nat → List Char → Option (Regex × List Char)
  | 0, _ => none
  | fuel + 1, cs =>
    match parseSeq fuel cs with
    | none => none
    | some (r, rest) =>
      match rest with
      | '|' :: rest2 =>
        match parseAlt fuel rest2 with
        | none => none
        | some (r2, rest3) => some (Regex.alt r r2, rest3)
      | _ => some (r, rest)

end

/-- Models Python `re.compile` on the pattern subset the program uses:
`none` is a compilation failure (`re.error`). -/
def compilePattern (pat : String) : Option Regex :=
  match parseAlt (3 * pat.data.length + 9) pat.data with
  | some (r, []) => some r
  | _ => none

/-- Models Python `re.search(pattern, text)`: raises `re.error` (here the
error branch) when the pattern does not compile, otherwise reports whether
the pattern matches anywhere within the text. -/
def reSearch (pat text : String) : Except String Bool :=
  match compilePattern pat with
  | none => Except.error "re.error"
  | some r => Except.ok (regexSearch r text)

/-- Match test that treats a non-compiling pattern as a non-match; used
only to phrase which rule is the first match. -/
def reSearchB (pat text : String) : Bool :=
  match reSearch pat text with
  | Except.ok b => b
  | Except.error _ => false

/-- Models Python `str.lower()`: lower-case every character. -/
def pyLower (s : String) : String :=
  String.mk (s.data.map Char.toLower)

/-- Lookup in a Python dict embedded as an insertion-ordered association
list: the value at the first entry with the given key. -/
def dictLookup {α : Type} : List (String × α) → String → Option α
  | [], _ => none
  | kv :: rest, k => if kv.1 = k then some kv.2 else dictLookup rest k

/-- Python dict assignment `d[k] = v`: replace the value in place when the
key is present, otherwise append the new entry at the end. -/
def dictInsert {α : Type} : List (String × α) → String → α → List (String × α)
  | [], k, v => [(k, v)]
  | kv :: rest, k, v =>
    if kv.1 = k then (k, v) :: rest else kv :: dictInsert rest k v

/-- Python dict merge `\x7b**base, **overlay\x7d`: every overlay entry is
assigned into the base table in order. -/
def dictMerge {α : Type} : List (String × α) → List (String × α) → List (String × α)
  | base, [] => base
  | base, kv :: rest => dictMerge (dictInsert base kv.1 kv.2) rest

/-- The loop in `main` that adds the session's custom rules to the bot:
`bot.rules[custom_rule["pattern"]] = [custom_rule["response"]]` for each
custom rule in order. -/
def applyCustom : List (String × List String) → List (String × String) →
    List (String × List String)
  | rules, [] => rules
  | rules, cr :: rest => applyCustom (dictInsert rules cr.1 [cr.2]) rest

/-- The default rule table of `RuleBasedChatbot.__init__`. -/
def defaultRules : List (String × List String) :=
  [("\\b(hello|hi|hey)\\b",
    ["Hello! How can I help you today?",
     "Hi there! What can I do for you?",
     "Hey! How\x27s it going?"]),
   ("\\b(bye|goodbye|see you)\\b",
    ["Goodbye! Have a great day!",
     "See you later!",
     "Take care!"]),
   ("\\bname\\b",
    ["I\x27m a rule-based chatbot created to help you learn!",
     "My name is RuleBot. Nice to meet you!"]),
   ("\\b(thanks|thank you)\\b",
    ["You\x27re welcome!",
     "Happy to help!",
     "No problem!"]),
   ("\\b(help|what can you do)\\b",
    ["I can respond to basic greetings, questions about my name, and simple conversations!",
     "I\x27m a simple rule-based bot. Try saying hello, asking my name, or saying goodbye!"])]

/-- The fixed fallback reply list `self.default_responses`. -/
def defaultResponses : List String :=
  ["I\x27m not sure I understand. Can you rephrase that?",
   "That\x27s interesting! Tell me more.",
   "I\x27m still learning. Can you ask me something else?",
   "Hmm, I don\x27t have a good response for that yet."]

/-- One entry of `CHATBOT_TEMPLATES`. -/
structure ChatTemplate where
  name : String
  description : String
  rules : List (String × List String)
  personality : String
deriving DecidableEq

/-- The `CHATBOT_TEMPLATES` table. -/
def chatbotTemplates : List (String × ChatTemplate) :=
  [("customer_support",
    { name := "Customer Support Bot",
      description := "Handles basic customer inquiries and support requests",
      rules :=
        [("\\b(order|tracking|delivery)\\b",
          ["I can help you track your order! Please provide your order number.",
           "Let me check on your delivery status. What\x27s your order ID?"]),
         ("\\b(return|refund)\\b",
          ["I understand you\x27d like to return an item. Our return policy allows returns within 30 days.",
           "For refunds, please contact our billing department or visit our returns page."]),
         ("\\b(hours|open|closed)\\b",
          ["Our customer service is available 24/7 through this chat!",
           "We\x27re here to help anytime! Our phone support is available 9 AM - 6 PM EST."])],
      personality := "professional" }),
   ("educational_tutor",
    { name := "Educational Tutor Bot",
      description := "Helps students learn with explanations and encouragement",
      rules :=
        [("\\b(math|algebra|calculus)\\b",
          ["Math is fun! What specific topic would you like help with?",
           "I love helping with math problems! Show me what you\x27re working on."]),
         ("\\b(science|physics|chemistry)\\b",
          ["Science is fascinating! What experiment or concept interests you?",
           "Let\x27s explore science together! What would you like to learn about?"]),
         ("\\b(homework|assignment)\\b",
          ["I\x27m here to help guide you through your homework, not do it for you! What do you need help understanding?",
           "Let\x27s work through this step by step. What part of the assignment is challenging?"])],
      personality := "educational" }),
   ("restaurant_bot",
    { name := "Restaurant Assistant",
      description := "Takes orders and provides menu information",
      rules :=
        [("\\b(menu|food|eat|order)\\b",
          ["Our menu includes pizza, burgers, salads, and daily specials!",
           "What would you like to order today? We have fresh ingredients!"]),
         ("\\b(hours|open|closed)\\b",
          ["We\x27re open Monday-Sunday, 11 AM - 10 PM!",
           "Our kitchen closes at 9:30 PM, but you can still order until then!"]),
         ("\\b(reservation|table|book)\\b",
          ["I\x27d be happy to help with reservations! How many people and what time?",
           "Let me check our availability. What day were you thinking?"])],
      personality := "helpful" })]

/-- The rule table produced by `RuleBasedChatbot.__init__`: the default
rules, with the chosen template's rules dict-merged on top when the
template name is present in `CHATBOT_TEMPLATES`. -/
def mkRules (template : Option String) : List (String × List String) :=
  match template with
  | some t =>
    match dictLookup chatbotTemplates t with
    | some tmpl => dictMerge defaultRules tmpl.rules
    | none => defaultRules
  | none => defaultRules

/-- Models `random.choice`: the random source is an index seed; choosing
from an empty sequence raises `IndexError`. -/
def randomChoice (σ : Nat) (xs : List String) : Except String String :=
  if h : 0 < xs.length then
    Except.ok (xs.get ⟨σ % xs.length, Nat.mod_lt σ h⟩)
  else
    Except.error "IndexError"

/-- The rule-scanning loop of `RuleBasedChatbot.get_response`: test each
pattern in table order against the (already lower-cased) text, returning
the first matching rule's reply list; a non-compiling pattern reached by
the scan raises `re.error`, exactly as `re.search` does. -/
def findMatch : List (String × List String) → String → Except String (Option (List String))
  | [], _ => Except.ok none
  | (p, rs) :: rest, t =>
    match reSearch p t with
    | Except.error e => Except.error e
    | Except.ok true => Except.ok (some rs)
    | Except.ok false => findMatch rest t

/-- The first rule of the table whose pattern matches the text, used to
state which rule wins. -/
def firstMatch (rules : List (String × List String)) (t : String) :
    Option (String × List String) :=
  rules.find? fun pr => reSearchB pr.1 t

/-- `RuleBasedChatbot.get_response`: lower-case the message, scan the rule
table for the first match, and choose a reply from its list, falling back
to the fixed default replies when nothing matches.  Errors raised by the
scan (a non-compiling pattern) propagate. -/
def getResponseE (σ : Nat) (rules : List (String × List String))
    (defaults : List String) (message : String) : Except String String :=
  match findMatch rules (pyLower message) with
  | Except.error e => Except.error e
  | Except.ok (some rs) => randomChoice σ rs
  | Except.ok none => randomChoice σ defaults

/-- One role-tagged chat message. -/
structure Msg where
  role : String
  content : String
deriving DecidableEq

/-- `self.personality_prompts` of `AIChatbot.__init__`. -/
def personalityPrompts : List (String × String) :=
  [("helpful", "You are a helpful and friendly assistant. Provide clear, useful responses."),
   ("creative", "You are a creative and imaginative assistant. Use vivid language and creative examples."),
   ("professional", "You are a professional business assistant. Be formal and direct in your responses."),
   ("funny", "You are a witty and humorous assistant. Add appropriate humor to your responses."),
   ("educational", "You are an educational tutor. Explain concepts clearly and ask follow-up questions.")]

/-- `self.personality_prompts.get(personality, helpful prompt)`. -/
def personaPrompt (personality : String) : String :=
  (dictLookup personalityPrompts personality).getD
    "You are a helpful and friendly assistant. Provide clear, useful responses."

/-- Python's `xs[-n:]`: the last `n` elements (all of them when fewer). -/
def lastN {α : Type} (n : Nat) (xs : List α) : List α :=
  xs.drop (xs.length - n)

/-- The context-assembly loop of `main`: keep the last 10 session messages
and of those only the user/assistant-role ones. -/
def buildContext (messages : List Msg) : List Msg :=
  (lastN 10 messages).filter fun m => m.role == "user" || m.role == "assistant"

/-- The message-list assembly of `AIChatbot.get_response`: the persona's
system prompt first, then the last 10 context entries, then the new user
message. -/
def assembleMessages (personality message : String) (context : List Msg) : List Msg :=
  Msg.mk "system" (personaPrompt personality) ::
    (lastN 10 context ++ [Msg.mk "user" message])

/-- The fixed reply of `AIChatbot.get_response` when no client is
configured. -/
def unconfiguredMessage : String :=
  "🔑 Please add your OpenAI API key in the sidebar to use the AI chatbot!"

/-- Client initialisation of `AIChatbot.__init__`: a client exists exactly
when the API key is present, non-empty and not the placeholder value. -/
def clientConfigured : Option String → Bool
  | none => false
  | some k => !(k == "") && !(k == "sk-default-key")

/-- `AIChatbot.get_response`: without a client, the fixed key-request
message; otherwise call the backend on the assembled messages, and map any
backend failure to the degraded reply embedding the failure description
(the `try/except` around the OpenAI call). -/
def aiGetResponse (backend : List Msg → Except String String)
    (configured : Bool) (personality message : String)
    (context : List Msg) : String :=
  if configured then
    match backend (assembleMessages personality message context) with
    | Except.ok t => t
    | Except.error e =>
      "Sorry, I encountered an error: " ++ e ++ ". Please check your API key."
  else
    unconfiguredMessage

/-- The full per-turn message list in generative mode: `main` appends the
new user input to the session history, builds the context from the last 10
messages, and `AIChatbot.get_response` assembles the backend list. -/
def turnMessages (history : List Msg) (personality input : String) : List Msg :=
  assembleMessages personality input (buildContext (history ++ [Msg.mk "user" input]))

/-- The three chatbot modes of `main`. -/
inductive BotMode where
  | rule_based : BotMode
  | ai_powered : BotMode
  | custom : BotMode
deriving DecidableEq

/-- The per-turn dispatch of `main`: rule-based mode builds the default
bot, assigns the session's custom rules into its table and asks it for a
response; generative mode asks the AI bot on the assembled context; custom
mode returns the fixed placeholder.  An `error` result is a turn that
ends in an uncaught exception instead of a reply. -/
def submitTurn (mode : BotMode) (customRules : List (String × String))
    (backend : List Msg → Except String String) (configured : Bool)
    (personality : String) (history : List Msg) (input : String)
    (σ : Nat) : Except String String :=
  match mode with
  | BotMode.rule_based =>
    getResponseE σ (applyCustom defaultRules customRules) defaultResponses input
  | BotMode.ai_powered =>
    Except.ok (aiGetResponse backend configured personality input
      (buildContext (history ++ [Msg.mk "user" input])))
  | BotMode.custom =>
    Except.ok "🚧 Custom bot functionality coming soon!"

/-! ### Helper lemmas -/

/-- `random.choice` on a non-empty sequence returns a member of it. -/
theorem randomChoice_mem (σ : Nat) (xs : List String) (h : 0 < xs.length) :
    ∃ r, randomChoice σ xs = Except.ok r ∧ r ∈ xs := by
  refine ⟨xs.get ⟨σ % xs.length, Nat.mod_lt σ h⟩, ?_,
    List.get_mem xs (σ % xs.length) (Nat.mod_lt σ h)⟩
  rw [randomChoice, dif_pos h]

/-- Dict assignment stores the assigned value at the assigned key. -/
theorem dictLookup_dictInsert_self {α : Type} (d : List (String × α)) (k : String) (v : α) :
    dictLookup (dictInsert d k v) k = some v := by
  induction d with
  | nil => simp [dictInsert, dictLookup]
  | cons kv rest ih =>
    by_cases hk : kv.1 = k
    · simp [dictInsert, hk, dictLookup]
    · simp [dictInsert, hk, dictLookup, ih]

/-- Dict assignment leaves other keys unchanged. -/
theorem dictLookup_dictInsert_ne {α : Type} (d : List (String × α)) {k q : String} (v : α)
    (h : q ≠ k) : dictLookup (dictInsert d k v) q = dictLookup d q := by
  have hkq : ¬(k = q) := fun hq => h hq.symm
  induction d with
  | nil => simp [dictInsert, dictLookup, hkq]
  | cons kv rest ih =>
    by_cases hk : kv.1 = k
    · simp only [dictInsert, if_pos hk, dictLookup]
      rw [if_neg hkq, if_neg (show ¬(kv.1 = q) by rw [hk]; exact hkq)]
    · simp only [dictInsert, if_neg hk, dictLookup]
      by_cases hq : kv.1 = q
      · rw [if_pos hq, if_pos hq]
      · rw [if_neg hq, if_neg hq, ih]

/-- Assigning to a key already present keeps the key sequence unchanged. -/
theorem dictInsert_keys_of_mem {α : Type} {d : List (String × α)} {k : String} (v : α)
    (h : k ∈ d.map Prod.fst) :
    (dictInsert d k v).map Prod.fst = d.map Prod.fst := by
  induction d with
  | nil => simp at h
  | cons kv rest ih =>
    by_cases hk : kv.1 = k
    · simp [dictInsert, hk]
    · simp only [List.map_cons, List.mem_cons] at h
      rcases h with h | h
      · exact absurd h.symm hk
      · simp [dictInsert, hk, ih h]

/-- A key of the table after an assignment was a key before, or is the
assigned key. -/
theorem dictInsert_keys_sub {α : Type} {d : List (String × α)} {k q : String} {v : α}
    (h : q ∈ (dictInsert d k v).map Prod.fst) :
    q ∈ d.map Prod.fst ∨ q = k := by
  induction d with
  | nil =>
    simp only [dictInsert, List.map_cons, List.map_nil, List.mem_singleton] at h
    exact Or.inr h
  | cons kv rest ih =>
    by_cases hk : kv.1 = k
    · simp only [dictInsert, if_pos hk, List.map_cons, List.mem_cons] at h
      rcases h with h | h
      · exact Or.inr h
      · refine Or.inl ?_
        simp only [List.map_cons, List.mem_cons]
        exact Or.inr h
    · simp only [dictInsert, if_neg hk, List.map_cons, List.mem_cons] at h
      rcases h with h | h
      · exact Or.inl (by simp [h])
      · rcases ih h with h2 | h2
        · refine Or.inl ?_
          simp only [List.map_cons, List.mem_cons]
          exact Or.inr h2
        · exact Or.inr h2

/-- An entry of the table after an assignment was an entry before, or
carries the assigned value. -/
theorem dictInsert_val_mem {α : Type} {d : List (String × α)} {k : String} {v : α}
    {pr : String × α} (h : pr ∈ dictInsert d k v) : pr ∈ d ∨ pr.2 = v := by
  induction d with
  | nil =>
    simp only [dictInsert, List.mem_singleton] at h
    exact Or.inr (by rw [h])
  | cons kv rest ih =>
    by_cases hk : kv.1 = k
    · simp only [dictInsert, if_pos hk, List.mem_cons] at h
      rcases h with h | h
      · exact Or.inr (by rw [h])
      · exact Or.inl (List.mem_cons_of_mem _ h)
    · simp only [dictInsert, if_neg hk, List.mem_cons] at h
      rcases h with h | h
      · exact Or.inl (by rw [h]; exact List.mem_cons_self _ _)
      · rcases ih h with h2 | h2
        · exact Or.inl (List.mem_cons_of_mem _ h2)
        · exact Or.inr h2

/-- Merging does not touch keys absent from the overlay. -/
theorem dictLookup_dictMerge_not_mem {α : Type} (ov : List (String × α))
    (b : List (String × α)) (p : String) (h : p ∉ ov.map Prod.fst) :
    dictLookup (dictMerge b ov) p = dictLookup b p := by
  induction ov generalizing b with
  | nil => rfl
  | cons kv rest ih =>
    simp only [List.map_cons, List.mem_cons, not_or] at h
    rw [dictMerge, ih _ h.2]
    exact dictLookup_dictInsert_ne b kv.2 h.1

/-- Merging installs exactly the overlay's value at every overlay key
(the overlay, a Python dict, has no duplicate keys). -/
theorem dictLookup_dictMerge_of_lookup {α : Type} (ov b : List (String × α))
    (p : String) (rs : α) (hnd : (ov.map Prod.fst).Nodup)
    (h : dictLookup ov p = some rs) :
    dictLookup (dictMerge b ov) p = some rs := by
  induction ov generalizing b with
  | nil => simp [dictLookup] at h
  | cons kv rest ih =>
    rw [dictMerge]
    simp only [List.map_cons, List.nodup_cons] at hnd
    by_cases hk : kv.1 = p
    · rw [dictLookup, if_pos hk] at h
      have hpn : p ∉ rest.map Prod.fst := hk ▸ hnd.1
      rw [dictLookup_dictMerge_not_mem _ _ _ hpn, ← hk,
        dictLookup_dictInsert_self]
      exact h
    · rw [dictLookup, if_neg hk] at h
      exact ih _ hnd.2 h

/-- Adding one custom rule is one dict assignment. -/
theorem applyCustom_single (rules : List (String × List String)) (p r : String) :
    applyCustom rules [(p, r)] = dictInsert rules p [r] := rfl

/-- Every key of the table after custom rules are added was a base key or
a custom-rule pattern. -/
theorem applyCustom_keys_sub {crs : List (String × String)}
    {rules : List (String × List String)} {q : String}
    (h : q ∈ (applyCustom rules crs).map Prod.fst) :
    q ∈ rules.map Prod.fst ∨ q ∈ crs.map Prod.fst := by
  induction crs generalizing rules with
  | nil => exact Or.inl h
  | cons cr rest ih =>
    rw [applyCustom] at h
    rcases ih h with h | h
    · rcases dictInsert_keys_sub h with h2 | h2
      · exact Or.inl h2
      · right; simp [h2]
    · right; simp [h]

/-- Adding custom rules preserves non-emptiness of every reply list. -/
theorem applyCustom_vals_ne {rules : List (String × List String)}
    {crs : List (String × String)} (h : ∀ pr ∈ rules, pr.2 ≠ []) :
    ∀ pr ∈ applyCustom rules crs, pr.2 ≠ [] := by
  induction crs generalizing rules with
  | nil => exact h
  | cons cr rest ih =>
    rw [applyCustom]
    refine ih ?_
    intro pr hpr
    rcases dictInsert_val_mem hpr with h1 | h1
    · exact h pr h1
    · rw [h1]; simp

/-- When every pattern of the table compiles, the scanning loop never
raises and agrees with the first-match description. -/
theorem findMatch_eq_firstMatch {rules : List (String × List String)} {t : String}
    (h : ∀ p ∈ rules.map Prod.fst, (compilePattern p).isSome = true) :
    findMatch rules t = Except.ok ((firstMatch rules t).map Prod.snd) := by
  induction rules with
  | nil => rfl
  | cons pr rest ih =>
    obtain ⟨p, rs⟩ := pr
    have hp : (compilePattern p).isSome = true := h p (by simp)
    obtain ⟨r, hr⟩ := Option.isSome_iff_exists.mp hp
    have hsearch : reSearch p t = Except.ok (regexSearch r t) := by
      simp [reSearch, hr]
    have hrb : reSearchB p t = regexSearch r t := by
      simp [reSearchB, hsearch]
    have hrest : ∀ q ∈ rest.map Prod.fst, (compilePattern q).isSome = true :=
      fun q hq => h q (by simp [hq])
    cases hb : regexSearch r t with
    | true =>
      rw [findMatch, hsearch, hb, firstMatch,
        List.find?_cons_of_pos _ (by rw [hrb, hb])]
      rfl
    | false =>
      rw [findMatch, hsearch, hb, firstMatch,
        List.find?_cons_of_neg _ (by rw [hrb, hb]; simp)]
      exact ih hrest

/-- A reply list returned by the scanning loop is the reply list of some
rule of the table. -/
theorem findMatch_some_mem {rules : List (String × List String)} {t : String}
    {rs : List String} (h : findMatch rules t = Except.ok (some rs)) :
    ∃ p, (p, rs) ∈ rules := by
  induction rules with
  | nil => simp [findMatch] at h
  | cons pr rest ih =>
    obtain ⟨p, qs⟩ := pr
    rw [findMatch] at h
    cases hs : reSearch p t with
    | error e => rw [hs] at h; cases h
    | ok b =>
      cases b with
      | false =>
        rw [hs] at h
        obtain ⟨q, hq⟩ := ih h
        exact ⟨q, by simp [hq]⟩
      | true =>
        rw [hs] at h
        obtain rfl : qs = rs := by simpa using h
        exact ⟨p, by simp⟩

/-- The last-`n` slice has at most `n` elements. -/
theorem lastN_length_le {α : Type} (n : Nat) (xs : List α) : (lastN n xs).length ≤ n := by
  simp only [lastN, List.length_drop]
  omega

/-- The last-`n` slice of a list of at most `n` elements is the list. -/
theorem lastN_of_le {α : Type} {n : Nat} {xs : List α} (h : xs.length ≤ n) :
    lastN n xs = xs := by
  simp [lastN, Nat.sub_eq_zero_of_le h]

/-- Slicing the last `n` twice equals slicing once. -/
theorem lastN_lastN {α : Type} (n : Nat) (xs : List α) :
    lastN n (lastN n xs) = lastN n xs :=
  lastN_of_le (lastN_length_le n xs)

/-- Members of the last-`n` slice are members of the list. -/
theorem mem_of_mem_lastN {α : Type} {n : Nat} {xs : List α} {a : α}
    (h : a ∈ lastN n xs) : a ∈ xs :=
  List.mem_of_mem_drop h

/-- The last element survives a non-trivial last-`n` slice. -/
theorem lastN_concat_getLast {α : Type} {n : Nat} (hn : 0 < n) (ys : List α) (u : α) :
    (lastN n (ys ++ [u])).getLast? = some u := by
  have h0 : (ys ++ [u]).length - n - ys.length = 0 := by
    simp only [List.length_append, List.length_cons, List.length_nil]
    omega
  rw [lastN, List.drop_append_eq_append_drop, h0, List.drop_zero]
  exact List.getLast?_concat _

/-! ### Claim theorems -/

/-- C5: when a template overlay is applied, the merged table maps every
overlay pattern to exactly the overlay's reply list (replacement, not
concatenation), so overlay patterns shared with the base replace the base
entry and overlay patterns absent from the base are present in the merged
table; and `RuleBasedChatbot.__init__` builds its table by exactly this
merge of the default rules with the chosen template's rules. -/
theorem template_overlay_replaces :
    (∀ (base overlay : List (String × List String)),
      (overlay.map Prod.fst).Nodup →
      ∀ p rs, dictLookup overlay p = some rs →
        dictLookup (dictMerge base overlay) p = some rs) ∧
    (∀ t tmpl, dictLookup chatbotTemplates t = some tmpl →
      mkRules (some t) = dictMerge defaultRules tmpl.rules) := by
  constructor
  · intro base overlay hnd p rs h
    exact dictLookup_dictMerge_of_lookup overlay base p rs hnd h
  · intro t tmpl h
    simp [mkRules, h]

/-- Witness for C5 at the spec's own example: base pattern `P` with
replies `[A, B]`, overlay with the same pattern and replies `[C]`; the
merged table maps `P` to exactly `[C]`. -/
theorem template_overlay_replaces_witness :
    (([("P", ["C"])] : List (String × List String)).map Prod.fst).Nodup ∧
    dictLookup [("P", ["C"])] "P" = some ["C"] ∧
    dictLookup (dictMerge [("P", ["A", "B"])] [("P", ["C"])]) "P" = some ["C"] :=
  ⟨by decide, by decide,
    template_overlay_replaces.1 [("P", ["A", "B"])] [("P", ["C"])]
      (by decide) "P" ["C"] (by decide)⟩

/-- C8: with no credential configured (API key absent or the placeholder
value), `AIChatbot.get_response` returns the fixed instructional message,
for every backend, persona, input and context — in particular the backend
function is never invoked. -/
theorem unconfigured_key_fixed_message (apiKey : Option String)
    (backend : List Msg → Except String String)
    (personality message : String) (context : List Msg)
    (h : apiKey = none ∨ apiKey = some "sk-default-key") :
    aiGetResponse backend (clientConfigured apiKey) personality message context =
      unconfiguredMessage := by
  rcases h with h | h <;> subst h <;> rfl

/-- Witness for C8: the placeholder key with an error-raising backend
still yields the fixed instructional message. -/
theorem unconfigured_key_fixed_message_witness :
    ((some "sk-default-key" : Option String) = none ∨
      (some "sk-default-key" : Option String) = some "sk-default-key") ∧
    aiGetResponse (fun _ => Except.error "boom")
      (clientConfigured (some "sk-default-key")) "helpful" "hi" [] =
      unconfiguredMessage :=
  ⟨Or.inr rfl,
    unconfigured_key_fixed_message (some "sk-default-key")
      (fun _ => Except.error "boom") "helpful" "hi" [] (Or.inr rfl)⟩

/-- C9: whenever the backend call raises a failure, `AIChatbot.get_response`
catches it and returns the degraded reply: the fixed prefix followed by the
failure's description — the failure never propagates. -/
theorem backend_failure_degraded_reply (backend : List Msg → Except String String)
    (personality message : String) (context : List Msg) (e : String)
    (h : backend (assembleMessages personality message context) = Except.error e) :
    aiGetResponse backend true personality message context =
      "Sorry, I encountered an error: " ++ e ++ ". Please check your API key." := by
  simp [aiGetResponse, h]

/-- Witness for C9: a backend raising `boom` produces exactly the degraded
reply embedding `boom`. -/
theorem backend_failure_degraded_reply_witness :
    ((fun _ => Except.error "boom") (assembleMessages "helpful" "hi" []) =
      (Except.error "boom" : Except String String)) ∧
    aiGetResponse (fun _ => Except.error "boom") true "helpful" "hi" [] =
      "Sorry, I encountered an error: " ++ "boom" ++ ". Please check your API key." :=
  ⟨rfl, backend_failure_degraded_reply (fun _ => Except.error "boom")
    "helpful" "hi" [] "boom" rfl⟩

/-- C2 (code bug): the pattern `(` does not compile, yet the add step
stores it in the rule table unchecked (the claim says the addition is
rejected with a `PatternCompilationError` at build time), and a later
`get_response` on an input matching no earlier rule raises `re.error` at
match time (the claim says compilation failure never occurs during
matching). -/
theorem malformed_pattern_accepted_at_add_fails_at_match :
    compilePattern "(" = none ∧
    applyCustom defaultRules [("(", "x")] = defaultRules ++ [("(", ["x"])] ∧
    getResponseE 0 (applyCustom defaultRules [("(", "x")]) defaultResponses "zzz" =
      Except.error "re.error" :=
  ⟨rfl, rfl, rfl⟩

/-- C1 counterexample: adding the user rule `\bname\b -> USERREPLY`, whose
pattern is textually identical to a default pattern, leaves the table size
unchanged (the entries are deduplicated, not kept side by side), and on
the matching input `name` the response is the user-added reply, which is
not among the earlier default rule's candidates. -/
theorem duplicate_pattern_overwrites_cex :
    (applyCustom defaultRules [("\\bname\\b", "USERREPLY")]).length =
      defaultRules.length ∧
    getResponseE 0 (applyCustom defaultRules [("\\bname\\b", "USERREPLY")])
      defaultResponses "name" = Except.ok "USERREPLY" ∧
    ((dictLookup defaultRules "\\bname\\b").getD []).contains "USERREPLY" = false :=
  ⟨rfl, rfl, rfl⟩

/-- C1 (amended): when a user-added rule's pattern is textually identical
to a pattern already present, the dict assignment replaces the existing
entry's reply list in place — the key sequence (hence table size) is
unchanged, the pattern now maps to the single user reply — and whenever
that pattern is the first match for an input, the user-added reply is
returned, not the earlier default candidates. -/
theorem duplicate_pattern_replaces_in_place (rules : List (String × List String))
    (p r : String)
    (hmem : p ∈ rules.map Prod.fst)
    (hc : ∀ q ∈ rules.map Prod.fst, (compilePattern q).isSome = true) :
    ((applyCustom rules [(p, r)]).map Prod.fst = rules.map Prod.fst) ∧
    dictLookup (applyCustom rules [(p, r)]) p = some [r] ∧
    ∀ σ message, firstMatch (applyCustom rules [(p, r)]) (pyLower message) =
        some (p, [r]) →
      getResponseE σ (applyCustom rules [(p, r)]) defaultResponses message =
        Except.ok r := by
  rw [applyCustom_single]
  refine ⟨dictInsert_keys_of_mem [r] hmem,
    dictLookup_dictInsert_self rules p [r], ?_⟩
  intro σ message hfm
  have hc2 : ∀ q ∈ (dictInsert rules p [r]).map Prod.fst,
      (compilePattern q).isSome = true := by
    rw [dictInsert_keys_of_mem [r] hmem]
    exact hc
  rw [getResponseE, findMatch_eq_firstMatch hc2, hfm]
  show randomChoice σ [r] = Except.ok r
  simp [randomChoice, Nat.mod_one]

/-- Witness for C1 (amended): the user rule for the already-present
pattern of the `name` rule, checked on the input `name`. -/
theorem duplicate_pattern_replaces_in_place_witness :
    ("\\bname\\b" ∈ defaultRules.map Prod.fst) ∧
    (∀ q ∈ defaultRules.map Prod.fst, (compilePattern q).isSome = true) ∧
    firstMatch (applyCustom defaultRules [("\\bname\\b", "USERREPLY")])
      (pyLower "name") = some ("\\bname\\b", ["USERREPLY"]) ∧
    getResponseE 5 (applyCustom defaultRules [("\\bname\\b", "USERREPLY")])
      defaultResponses "name" = Except.ok "USERREPLY" :=
  ⟨by decide, by decide, rfl,
    (duplicate_pattern_replaces_in_place defaultRules "\\bname\\b" "USERREPLY"
      (by decide) (by decide)).2.2 5 "name" rfl⟩

/-- C6: `get_response` lower-cases the input and scans the table in order;
for every random seed it returns a reply drawn from the reply list of the
first rule whose pattern matches anywhere within the lower-cased text (or
a fallback when none matches) — so which rule is matched is independent of
the random source, even though the chosen reply may vary within that
rule's candidates. -/
theorem respond_first_match_reply (rules : List (String × List String))
    (defaults : List String) (message : String) (σ : Nat)
    (hc : ∀ p ∈ rules.map Prod.fst, (compilePattern p).isSome = true)
    (hv : ∀ pr ∈ rules, pr.2 ≠ [])
    (hd : defaults ≠ []) :
    ∃ r, getResponseE σ rules defaults message = Except.ok r ∧
      ((∃ pr, firstMatch rules (pyLower message) = some pr ∧ r ∈ pr.2) ∨
       (firstMatch rules (pyLower message) = none ∧ r ∈ defaults)) := by
  rw [getResponseE, findMatch_eq_firstMatch hc]
  cases hfm : firstMatch rules (pyLower message) with
  | none =>
    obtain ⟨r, hr, hm⟩ := randomChoice_mem σ defaults (List.length_pos.mpr hd)
    exact ⟨r, hr, Or.inr ⟨rfl, hm⟩⟩
  | some pr =>
    have hmem : pr ∈ rules := List.mem_of_find?_eq_some hfm
    have hne : pr.2 ≠ [] := hv pr hmem
    obtain ⟨r, hr, hm⟩ := randomChoice_mem σ pr.2 (List.length_pos.mpr hne)
    exact ⟨r, hr, Or.inl ⟨pr, rfl, hm⟩⟩

/-- Witness for C6 at the spec's example input `hello there` on the
default table, with seed 1. -/
theorem respond_first_match_reply_witness :
    (∀ p ∈ defaultRules.map Prod.fst, (compilePattern p).isSome = true) ∧
    (∀ pr ∈ defaultRules, pr.2 ≠ []) ∧
    defaultResponses ≠ [] ∧
    (∃ r, getResponseE 1 defaultRules defaultResponses "hello there" =
        Except.ok r ∧
      ((∃ pr, firstMatch defaultRules (pyLower "hello there") = some pr ∧
          r ∈ pr.2) ∨
       (firstMatch defaultRules (pyLower "hello there") = none ∧
          r ∈ defaultResponses))) :=
  ⟨by decide, by decide, by decide,
    respond_first_match_reply defaultRules defaultResponses "hello there" 1
      (by decide) (by decide) (by decide)⟩

/-- C7: whenever the scan of the table finds no matching pattern for the
lower-cased input, `get_response` returns a member of the fixed fallback
list of four default responses. -/
theorem respond_fallback_member (rules : List (String × List String))
    (message : String) (σ : Nat)
    (h : findMatch rules (pyLower message) = Except.ok none) :
    ∃ r, getResponseE σ rules defaultResponses message = Except.ok r ∧
      r ∈ defaultResponses := by
  rw [getResponseE, h]
  exact randomChoice_mem σ defaultResponses (by decide)

/-- Witness for C7: the input `zzz` matches no default pattern, and the
response with seed 2 is one of the four fallback replies. -/
theorem respond_fallback_member_witness :
    findMatch (mkRules none) (pyLower "zzz") = Except.ok none ∧
    (∃ r, getResponseE 2 (mkRules none) defaultResponses "zzz" =
        Except.ok r ∧ r ∈ defaultResponses) :=
  ⟨rfl, respond_fallback_member (mkRules none) "zzz" 2 rfl⟩

/-- C3 counterexample: in rule-based mode with the user-added rule
`( -> y` (a malformed pattern) stored, the turn on input `ok` ends in an
uncaught `re.error` instead of a reply. -/
theorem malformed_rule_drops_turn_cex :
    submitTurn BotMode.rule_based [("(", "y")] (fun _ => Except.ok "ignored")
      true "helpful" [] "ok" 0 = Except.error "re.error" :=
  rfl

/-- C3 (amended): provided every user-added rule's pattern compiles, every
submitted turn in every mode — rule-based, generative and custom — returns
a textual reply. -/
theorem every_turn_replies_when_rules_compile (mode : BotMode)
    (customRules : List (String × String))
    (backend : List Msg → Except String String) (configured : Bool)
    (personality : String) (history : List Msg) (input : String) (σ : Nat)
    (h : ∀ cr ∈ customRules, (compilePattern cr.1).isSome = true) :
    ∃ reply, submitTurn mode customRules backend configured personality
      history input σ = Except.ok reply := by
  cases mode with
  | ai_powered => exact ⟨_, rfl⟩
  | custom => exact ⟨_, rfl⟩
  | rule_based =>
    have hdef : ∀ q ∈ defaultRules.map Prod.fst,
        (compilePattern q).isSome = true := by decide
    have hc : ∀ p ∈ (applyCustom defaultRules customRules).map Prod.fst,
        (compilePattern p).isSome = true := by
      intro p hp
      rcases applyCustom_keys_sub hp with h1 | h1
      · exact hdef p h1
      · obtain ⟨cr, hcr, hcr2⟩ := List.mem_map.mp h1
        exact hcr2 ▸ h cr hcr
    show ∃ reply, getResponseE σ (applyCustom defaultRules customRules)
      defaultResponses input = Except.ok reply
    rw [getResponseE, findMatch_eq_firstMatch hc]
    cases hfm : firstMatch (applyCustom defaultRules customRules) (pyLower input) with
    | none =>
      obtain ⟨r, hr, _⟩ := randomChoice_mem σ defaultResponses (by decide)
      exact ⟨r, hr⟩
    | some pr =>
      have hmem : pr ∈ applyCustom defaultRules customRules :=
        List.mem_of_find?_eq_some hfm
      have hne : pr.2 ≠ [] := applyCustom_vals_ne (by decide) pr hmem
      obtain ⟨r, hr, _⟩ := randomChoice_mem σ pr.2 (List.length_pos.mpr hne)
      exact ⟨r, hr⟩

/-- Witness for C3 (amended): with the well-formed user rule
`\bfood\b -> I love talking about food!` the rule-based turn on `hello`
returns a reply. -/
theorem every_turn_replies_when_rules_compile_witness :
    (∀ cr ∈ [("\\bfood\\b", "I love talking about food!")],
      (compilePattern cr.1).isSome = true) ∧
    (∃ reply, submitTurn BotMode.rule_based
      [("\\bfood\\b", "I love talking about food!")]
      (fun _ => Except.ok "ignored") true "helpful" [] "hello" 0 =
        Except.ok reply) :=
  ⟨by decide,
    every_turn_replies_when_rules_compile BotMode.rule_based
      [("\\bfood\\b", "I love talking about food!")]
      (fun _ => Except.ok "ignored") true "helpful" [] "hello" 0 (by decide)⟩

/-- C4 counterexample: with an empty prior conversation and input `hi`,
the backend message list is system entry, `hi`, `hi` — the new user input
appears twice, not exactly once as the claim states, because `main`
appends the input to the history before slicing the context and
`get_response` appends it again. -/
theorem context_duplicates_new_input_cex :
    turnMessages [] "helpful" "hi" =
      [Msg.mk "system"
        "You are a helpful and friendly assistant. Provide clear, useful responses.",
       Msg.mk "user" "hi", Msg.mk "user" "hi"] ∧
    (turnMessages [] "helpful" "hi").countP
      (fun m => m == Msg.mk "user" "hi") = 2 :=
  ⟨rfl, rfl⟩

/-- C4 (amended): for a history of user/assistant turns, the backend
message list is one leading system entry carrying the persona instruction,
then the last 10 messages of the conversation with the new input already
appended (all of them if fewer), in chronological order with original
roles, then the new input again as the final user entry — the window's
last element is already the new input, so the new input appears twice. -/
theorem context_shape_with_duplicate (history : List Msg)
    (personality input : String)
    (h : ∀ m ∈ history, m.role = "user" ∨ m.role = "assistant") :
    turnMessages history personality input =
      Msg.mk "system" (personaPrompt personality) ::
        (lastN 10 (history ++ [Msg.mk "user" input]) ++ [Msg.mk "user" input]) ∧
    (lastN 10 (history ++ [Msg.mk "user" input])).getLast? =
      some (Msg.mk "user" input) := by
  constructor
  · have hfilter : buildContext (history ++ [Msg.mk "user" input]) =
        lastN 10 (history ++ [Msg.mk "user" input]) := by
      rw [buildContext]
      apply List.filter_eq_self.mpr
      intro m hm
      have hm2 : m ∈ history ++ [Msg.mk "user" input] := mem_of_mem_lastN hm
      rcases List.mem_append.mp hm2 with h1 | h1
      · rcases h m h1 with h2 | h2 <;> simp [h2]
      · simp only [List.mem_singleton] at h1
        subst h1
        simp
    rw [turnMessages, assembleMessages, hfilter, lastN_lastN]
  · exact lastN_concat_getLast (by omega) history (Msg.mk "user" input)

/-- Witness for C4 (amended): a two-turn history and input `hi`. -/
theorem context_shape_with_duplicate_witness :
    (∀ m ∈ [Msg.mk "user" "a", Msg.mk "assistant" "b"],
      m.role = "user" ∨ m.role = "assistant") ∧
    (turnMessages [Msg.mk "user" "a", Msg.mk "assistant" "b"] "helpful" "hi" =
      Msg.mk "system" (personaPrompt "helpful") ::
        (lastN 10 ([Msg.mk "user" "a", Msg.mk "assistant" "b"] ++
          [Msg.mk "user" "hi"]) ++ [Msg.mk "user" "hi"]) ∧
     (lastN 10 ([Msg.mk "user" "a", Msg.mk "assistant" "b"] ++
        [Msg.mk "user" "hi"])).getLast? = some (Msg.mk "user" "hi")) :=
  ⟨by decide,
    context_shape_with_duplicate [Msg.mk "user" "a", Msg.mk "assistant" "b"]
      "helpful" "hi" (by decide)⟩

/-- C10: for every history, persona and input, the backend message list
has exactly one system entry, placed first, a middle block of at most 10
conversation entries, exactly one final user entry holding the new input,
and total length between 2 and 12. -/
theorem assembled_messages_invariants (history : List Msg)
    (personality input : String) :
    ∃ mid : List Msg,
      turnMessages history personality input =
        Msg.mk "system" (personaPrompt personality) ::
          (mid ++ [Msg.mk "user" input]) ∧
      mid.length ≤ 10 ∧
      (turnMessages history personality input).countP
        (fun m => m.role == "system") = 1 ∧
      2 ≤ (turnMessages history personality input).length ∧
      (turnMessages history personality input).length ≤ 12 := by
  refine ⟨lastN 10 (buildContext (history ++ [Msg.mk "user" input])),
    rfl, lastN_length_le _ _, ?_, ?_, ?_⟩
  · show (Msg.mk "system" (personaPrompt personality) ::
      (lastN 10 (buildContext (history ++ [Msg.mk "user" input])) ++
        [Msg.mk "user" input])).countP (fun m => m.role == "system") = 1
    rw [List.countP_cons_of_pos _ _ (by rfl), List.countP_append]
    have hmid : (lastN 10 (buildContext (history ++ [Msg.mk "user" input]))).countP
        (fun m => m.role == "system") = 0 := by
      apply List.countP_eq_zero.mpr
      intro m hm
      have hm2 : m ∈ buildContext (history ++ [Msg.mk "user" input]) :=
        mem_of_mem_lastN hm
      have hrole := (List.mem_filter.mp hm2).2
      simp only [Bool.or_eq_true, beq_iff_eq] at hrole
      rcases hrole with h2 | h2 <;> simp [h2]
    rw [hmid]
    rfl
  · show 2 ≤ (Msg.mk "system" (personaPrompt personality) ::
      (lastN 10 (buildContext (history ++ [Msg.mk "user" input])) ++
        [Msg.mk "user" input])).length
    simp
  · show (Msg.mk "system" (personaPrompt personality) ::
      (lastN 10 (buildContext (history ++ [Msg.mk "user" input])) ++
        [Msg.mk "user" input])).length ≤ 12
    have := lastN_length_le 10 (buildContext (history ++ [Msg.mk "user" input]))
    simp only [List.length_cons, List.length_append, List.length_nil]
    omega
